import Mathlib

/-!
# Verification of the GNS3 GUI project-lifecycle and server-bootstrap code

Shallow embedding of `gns3/main_window.py` (class `MainWindow`): the
project lifecycle operations (`_createTemporaryProject`, `loadProject`,
`saveProject`, `saveProjectAs`, `_deleteTemporaryProject`,
`_setCurrentFile`, `_updateRecentFileSettings`, `_convertOldProject`),
the user-action slots that drive them (`_newProjectActionSlot`,
`openProjectActionSlot`, `openRecentFileSlot`,
`checkForUnsavedChanges`) and the startup local-server bootstrap
sequence (`startupLoading`).

External collaborators (Qt widgets, dialogs, the filesystem, the
`Servers`/`Topology` singletons, worker threads) are modelled as
explicit environment records holding the outcome each collaborator
would report; observable side effects (directory creation, file
transfer, temporary-file deletion, signal emission) are recorded in an
event trace.  Machinery that is pure presentation (status-bar
messages, message boxes, icons) is not modelled.
-/

namespace GNS3

/-! ## String helpers (os.path behaviour used by the source) -/

/-- Characters after the last `/` of a path (`os.path.basename`). -/
def basenameStr (p : String) : String :=
  String.mk ((p.toList.reverse.takeWhile (fun c => c ≠ '/')).reverse)

/-- Index of the last `.` in a character list, if any. -/
def lastDotIdx (cs : List Char) : Option Nat :=
  match cs.reverse.findIdx? (fun c => c = '.') with
  | none => none
  | some j => some (cs.length - 1 - j)

/-- The extension of a path as computed by `os.path.splitext(path)[1]`:
the suffix of the basename starting at its last dot, except that a run
of dots at the very start of the basename never begins an extension. -/
def extOf (p : String) : String :=
  let b := (basenameStr p).toList
  match lastDotIdx b with
  | none => ""
  | some i =>
    if (b.takeWhile (fun c => c = '.')).length < i then String.mk (b.drop i) else ""

/-- Python `str.endswith(s)`. -/
def strEndsWith (p s : String) : Bool :=
  let a := p.toList
  let b := s.toList
  (a.drop (a.length - b.length)) == b

/-- Python `p[:-n]` (drop the last `n` characters). -/
def strDropRight (p : String) (n : Nat) : String :=
  String.mk (p.toList.take (p.toList.length - n))

/-- Python truthiness of an optional string (`None` and `""` are falsy). -/
def pyTruthy : Option String → Bool
  | none => false
  | some s => !(s == "")

/-! ## Data model -/

/-- A node as observed by `MainWindow.saveProjectAs`: its name, whether
it has a `start` attribute (`hasattr(node, "start")`), and whether its
status equals `Node.started`. -/
structure Node where
  name : String
  hasStart : Bool
  started : Bool
deriving Repr, DecidableEq

/-- The parsed JSON project descriptor as consumed by `loadProject`:
the `resources_type` field it dispatches on, the node population the
topology would materialize, and an abstract payload standing for the
rest of the document. -/
structure JsonTopology where
  resources_type : String
  nodes : List Node
  payload : Nat
deriving Repr, DecidableEq

/-- The `MainWindow` state relevant to the project lifecycle:
`self._project_settings` (name, path, files dir, type), the
`self._temporary_project` flag, the window file path and modified flag,
the in-memory topology held by the graphics view / `Topology` singleton
(`none` after `uiGraphicsView.reset()`), the persisted recent-files
list, the files directory last pushed to the graphics view, and the
configured projects directory (`projectsDirPath()`). -/
structure MWState where
  project_name : String
  project_path : Option String
  project_files_dir : Option String
  project_type : String
  temporary_project : Bool
  windowFilePath : String
  windowModified : Bool
  topology : Option JsonTopology
  nodes : List Node
  recentFiles : List String
  viewFilesDir : Option String
  projects_path : String
deriving Repr, DecidableEq

/-- Observable side effects and signals, recorded in order. -/
inductive Event where
  | resetView
  | mkdirs (d : String)
  | updateViewDir (d : Option String)
  | transfer (src dst : String) (move : Bool)
  | deleteTempFiles (filesDir path : String)
  | writeDescriptor (path : String)
  | aboutToClose (path : Option String)
  | projectNew (path : Option String)
deriving Repr, DecidableEq

/-- Is this event the `project_new_signal` emission? -/
def Event.isNew : Event → Bool
  | .projectNew _ => true
  | _ => false

/-- Is this event the `project_about_to_close_signal` emission? -/
def Event.isClosing : Event → Bool
  | .aboutToClose _ => true
  | _ => false

/-- Is this event the deletion of a temporary project's backing files? -/
def Event.isTeardown : Event → Bool
  | .deleteTempFiles _ _ => true
  | _ => false

/-- An event that is neither a `project_new` nor a `project_about_to_close`
signal emission. -/
def Event.plainB (e : Event) : Bool := !e.isNew && !e.isClosing

/-- Model of `uiGraphicsView.reset()`: destroys the scene, emptying the in-memory
topology and its nodes. -/
def resetView (s : MWState) : MWState :=
  { s with topology := none, nodes := [] }

/-! ## Recent files (`_updateRecentFileSettings`) -/

/-- The bound `self._max_recent_files = 5`. -/
def maxRecentFiles : Nat := 5

/-- The read loop of `_updateRecentFileSettings`: entries of the stored
array whose `path` value is non-empty. -/
def readRecentFiles (stored : List String) : List String :=
  stored.filter (fun f => f ≠ "")

/-- The update step of `_updateRecentFileSettings` on the in-memory
list: remove `path` if present, insert it at the front, and pop the
last entry if the bound of `maxRecentFiles` is exceeded. -/
def recentInsert (recent : List String) (path : String) : List String :=
  let r := if recent.contains path then recent.erase path else recent
  let r := path :: r
  if maxRecentFiles < r.length then r.dropLast else r

/-- Model of `_updateRecentFileSettings`: read the stored list, update it, and
write it back.  Returns the list that is written back. -/
def updateRecentFileSettings (stored : List String) (path : String) : List String :=
  recentInsert (readRecentFiles stored) path

/-! ## `_setCurrentFile`, `_deleteTemporaryProject`, `_createTemporaryProject` -/

/-- Model of `_setCurrentFile(path)`: with a falsy path the project becomes
temporary with the unsaved placeholder as window file path; with a real
path the project becomes non-temporary, the window file path is the
project path and the recent-files list is updated.  Both branches clear
the window-modified flag. -/
def setCurrentFile (s : MWState) (path : Option String) : MWState :=
  if pyTruthy path then
    let p := path.getD ""
    { s with temporary_project := false,
             windowFilePath := p,
             recentFiles := updateRecentFileSettings s.recentFiles p,
             windowModified := false }
  else
    { s with temporary_project := true,
             windowFilePath := "Unsaved project",
             windowModified := false }

/-- Model of `_deleteTemporaryProject`: when the project is temporary and has a
truthy path, its files directory and descriptor file are removed
(best-effort); the in-memory settings are not touched. -/
def deleteTemporaryProject (s : MWState) : List Event :=
  if s.temporary_project && pyTruthy s.project_path then
    [Event.deleteTempFiles (s.project_files_dir.getD "") (s.project_path.getD "")]
  else
    []

/-- Environment for `_createTemporaryProject`: the name of the
`NamedTemporaryFile` when the whole filesystem block succeeds (`none`
covers an `OSError` anywhere inside the `with` block, before the two
settings assignments), and whether the sibling files directory already
existed. -/
structure TempEnv where
  tmpFile : Option String
  dirAlreadyExists : Bool
deriving Repr, DecidableEq

/-- Model of `_createTemporaryProject`: resets the view, creates a temporary
descriptor file and `<name>-files` directory and records them in the
project settings; on `OSError` only a message box is shown and the old
settings remain.  Both branches then push the (possibly stale) files
directory to the graphics view and call `_setCurrentFile()` with no
argument. -/
def createTemporaryProject (s : MWState) (env : TempEnv) : MWState × List Event :=
  let s0 := resetView s
  match env.tmpFile with
  | some name =>
    let fd := name ++ "-files"
    let evMk := if env.dirAlreadyExists then [] else [Event.mkdirs fd]
    let s1 := { s0 with project_files_dir := some fd, project_path := some name }
    let s2 := { s1 with viewFilesDir := s1.project_files_dir }
    (setCurrentFile s2 none, Event.resetView :: evMk ++ [Event.updateViewDir (some fd)])
  | none =>
    let s1 := { s0 with viewFilesDir := s0.project_files_dir }
    (setCurrentFile s1 none,
      [Event.resetView, Event.updateViewDir s0.project_files_dir])

/-! ## `saveProject` -/

/-- Model of `saveProject(path)`: serialize the topology to `path`.  On success
the project path is recorded, `_setCurrentFile(path)` runs and `True`
is returned; on `OSError` nothing is changed and `False` is returned. -/
def saveProject (s : MWState) (path : String) (writeOk : Bool) :
    MWState × Bool × List Event :=
  if writeOk then
    let s1 := { s with project_path := some path }
    (setCurrentFile s1 (some path), true, [Event.writeDescriptor path])
  else
    (s, false, [])

/-! ## `saveProjectAs` -/

/-- The running-nodes scan at the top of `saveProjectAs`: names of nodes
that have a `start` attribute and whose status is `Node.started`. -/
def runningNodes (nodes : List Node) : List String :=
  (nodes.filter (fun n => n.hasStart && n.started)).map Node.name

/-- Environment for `saveProjectAs`: whether creating the projects
directory succeeds (`FileExistsError` counts as success), the directory
selected in the save dialog (`none` = dialog rejected), whether creating
the new files directory and mirroring the sub-directory tree succeed,
and whether the final descriptor write in `saveProject` succeeds. -/
structure SaveAsEnv where
  projectsDirOk : Bool
  fileDialog : Option String
  newFilesDirOk : Bool
  subDirsOk : Bool
  saveWriteOk : Bool
deriving Repr, DecidableEq

/-- Result of `saveProjectAs` (Python returns `None` on the refusal,
error and cancel paths, else the boolean from `saveProject`). -/
inductive SaveAsResult where
  | nodesRunning (names : List String)
  | ioError
  | cancelled
  | savedTrue
  | savedFalse
deriving Repr, DecidableEq

/-- Python truthiness of a `saveProjectAs` return value. -/
def SaveAsResult.isTruthy : SaveAsResult → Bool
  | .savedTrue => true
  | _ => false

/-- Model of `saveProjectAs`: refuse if any startable node is running; create the
projects directory; ask for a destination; create the destination files
directory and mirror the sub-directory tree; push the new files
directory to the view; move the files when the project is temporary,
copy them otherwise; delete the old temporary project; record the new
files directory and name; finally `saveProject` on the new descriptor
path. -/
def saveProjectAs (s : MWState) (env : SaveAsEnv) :
    MWState × SaveAsResult × List Event :=
  let running := runningNodes s.nodes
  if !running.isEmpty then
    (s, .nodesRunning running, [])
  else if !env.projectsDirOk then
    (s, .ioError, [])
  else
    match env.fileDialog with
    | none => (s, .cancelled, [Event.mkdirs s.projects_path])
    | some project_dir =>
      let project_name := basenameStr project_dir
      let topology_file_path := project_dir ++ "/" ++ project_name ++ ".gns3"
      let new_files_dir := project_dir ++ "/" ++ project_name ++ "-files"
      if !env.newFilesDirOk then
        (s, .ioError, [Event.mkdirs s.projects_path])
      else if !env.subDirsOk then
        (s, .ioError, [Event.mkdirs s.projects_path, Event.mkdirs new_files_dir])
      else
        let move := s.temporary_project
        let evPre := [Event.mkdirs s.projects_path, Event.mkdirs new_files_dir,
                      Event.updateViewDir (some new_files_dir)]
        let evTransfer := [Event.transfer (s.project_files_dir.getD "") new_files_dir move]
        let evDel := deleteTemporaryProject s
        let s1 := { s with viewFilesDir := some new_files_dir,
                           project_files_dir := some new_files_dir,
                           project_name := project_name }
        let out := saveProject s1 topology_file_path env.saveWriteOk
        (out.1, if out.2.1 then .savedTrue else .savedFalse,
          evPre ++ evTransfer ++ evDel ++ out.2.2)

/-! ## `loadProject` and `_convertOldProject` -/

/-- Filesystem environment for the non-legacy branch of `loadProject`:
`openRead` is `none` when `open(path)` raises `OSError`, `some none`
when `json.load` raises `ValueError`, and `some (some t)` when the
descriptor parses to `t`; `filesDirExists` is `os.path.isdir` on the
derived files directory and `makedirsOk` whether creating it succeeds. -/
structure LoadFsEnv where
  openRead : Option (Option JsonTopology)
  filesDirExists : Bool
  makedirsOk : Bool
deriving Repr, DecidableEq

/-- Outcome of `_convertOldProject`'s collaborators: the converter
module may be missing, the rename dialog may be cancelled, conversion
may fail (`ConvertError` or an unexpected exception), or conversion
succeeds — yielding the configured projects path, the chosen project
name, and the filesystem environment met by the follow-up load of the
converted project. -/
inductive ConvertOutcome where
  | importError
  | dialogCancelled
  | convertError
  | unexpectedError
  | success (projectsPath projectName : String) (nested : LoadFsEnv)
deriving Repr, DecidableEq

/-- Environment for `loadProject`. -/
structure LoadEnv where
  fs : LoadFsEnv
  convert : ConvertOutcome
deriving Repr, DecidableEq

/-- Return value of `loadProject`: `True`, `False`, or the bare `return`
(`None`) taken after dispatching a `.net` path to the converter. -/
inductive LoadResult where
  | ok
  | err
  | netReturn
deriving Repr, DecidableEq

/-- Python truthiness of a `loadProject` return value. -/
def LoadResult.isTruthy : LoadResult → Bool
  | .ok => true
  | _ => false

/-- The files-directory stem computed inside `loadProject`: the path
with a trailing `.gns3` stripped, else a trailing `.net` stripped, else
the path unchanged. -/
def projectFilesDirFor (path : String) : String :=
  if strEndsWith path ".gns3" then strDropRight path 5
  else if strEndsWith path ".net" then strDropRight path 4
  else path

/-- The non-legacy branch of `loadProject`, after `uiGraphicsView.reset()`
and the extension dispatch: open and parse the descriptor, record the
derived files directory in the project settings, create it if absent,
push it to the view, dispatch on `resources_type`, replace the topology,
then record the project path and run `_setCurrentFile(path)`.
`need_to_save` is always `False` (the cloud branch that would set it is
commented out), so the inner `saveProject` call never runs.  `OSError`
and `ValueError` are caught and yield `False`. -/
def loadProjectNonNet (s : MWState) (path : String) (env : LoadFsEnv) :
    MWState × LoadResult × List Event :=
  match env.openRead with
  | none => (s, .err, [])
  | some none => (s, .err, [])
  | some (some t) =>
    let fd := projectFilesDirFor path ++ "-files"
    let s1 := { s with project_files_dir := some fd }
    if !env.filesDirExists && !env.makedirsOk then
      (s1, .err, [])
    else
      let evMk := if env.filesDirExists then [] else [Event.mkdirs fd]
      let s2 := { s1 with
        viewFilesDir := some fd,
        project_type := if t.resources_type = "cloud" then "cloud" else "local",
        topology := some t,
        nodes := t.nodes,
        project_path := some path }
      (setCurrentFile s2 (some path), .ok, evMk ++ [Event.updateViewDir (some fd)])

/-- Model of `_convertOldProject(path)`: on any failure only a message box is
shown; on success the converted project is loaded via a recursive
`loadProject` call.  The converted path always ends in `".gns3"`, whose
`splitext` extension is never `".net"`, so that recursive call always
takes the non-legacy branch; its return value is discarded. -/
def convertOldProject (s : MWState) (path : String) (cenv : ConvertOutcome) :
    MWState × List Event :=
  match cenv with
  | .success projectsPath projectName nested =>
    let project_dir := projectsPath ++ "/" ++ projectName
    let project_path := project_dir ++ "/" ++ projectName ++ ".gns3"
    let out := loadProjectNonNet (resetView s) project_path nested
    (out.1, Event.resetView :: out.2.2)
  | _ => (s, [])

/-- Model of `loadProject(path)`: reset the view, then either divert a `.net`
path to the converter (and fall off the function, returning `None`) or
run the normal load. -/
def loadProject (s : MWState) (path : String) (env : LoadEnv) :
    MWState × LoadResult × List Event :=
  let s0 := resetView s
  if extOf path = ".net" then
    let out := convertOldProject s0 path env.convert
    (out.1, .netReturn, Event.resetView :: out.2)
  else
    let out := loadProjectNonNet s0 path env.fs
    (out.1, out.2.1, Event.resetView :: out.2.2)

/-! ## `checkForUnsavedChanges` and the user-action slots -/

/-- Reply to the unsaved-changes message box. -/
inductive Reply where
  | save
  | discard
  | cancel
deriving Repr, DecidableEq

/-- Environment for `checkForUnsavedChanges`: the message-box reply
(consulted only when the window is modified), the environment of the
`saveProjectAs` call made for a modified temporary project, and the
write outcome of the direct `saveProject` call made for a modified
persisted project. -/
structure CheckEnv where
  reply : Reply
  saveAsEnv : SaveAsEnv
  saveWriteOk : Bool
deriving Repr, DecidableEq

/-- Model of `checkForUnsavedChanges`: for a modified window, `Save` delegates to
`saveProjectAs` (temporary project) or `saveProject` (persisted) and
returns that result's truthiness, `Cancel` returns `False`; `Discard`
and the unmodified case delete a temporary project's files and return
`True`. -/
def checkForUnsavedChanges (s : MWState) (env : CheckEnv) :
    MWState × Bool × List Event :=
  if s.windowModified then
    match env.reply with
    | .save =>
      if s.temporary_project then
        let out := saveProjectAs s env.saveAsEnv
        (out.1, out.2.1.isTruthy, out.2.2)
      else
        saveProject s (s.project_path.getD "") env.saveWriteOk
    | .cancel => (s, false, [])
    | .discard => (s, true, deleteTemporaryProject s)
  else
    (s, true, deleteTemporaryProject s)

/-- Environment for `_newProjectActionSlot`: the unsaved-changes check,
whether the new-project dialog was accepted, and the environment of the
`_createTemporaryProject` call made when it was not. -/
structure NewSlotEnv where
  check : CheckEnv
  dialogCreate : Bool
  tempEnv : TempEnv
deriving Repr, DecidableEq

/-- Model of `_newProjectActionSlot`: when the unsaved-changes check passes, show
the dialog, emit `project_about_to_close_signal` with the current
project path, then either reset the view with the new settings
(collaborator `uiGraphicsView.reset(settings)`, modelled as a view
reset) or create a temporary project, and finally emit
`project_new_signal` with the resulting project path. -/
def newProjectActionSlot (s : MWState) (env : NewSlotEnv) :
    MWState × List Event :=
  let c := checkForUnsavedChanges s env.check
  let s1 := c.1
  if c.2.1 then
    let out :=
      if env.dialogCreate then (resetView s1, [Event.resetView])
      else createTemporaryProject s1 env.tempEnv
    (out.1, c.2.2 ++ Event.aboutToClose s1.project_path ::
      (out.2 ++ [Event.projectNew out.1.project_path]))
  else
    (s1, c.2.2)

/-- Environment for `openProjectActionSlot`: the path chosen in the
file dialog (`""` when cancelled), the unsaved-changes check, and the
load environment. -/
structure OpenSlotEnv where
  chosenPath : String
  check : CheckEnv
  load : LoadEnv
deriving Repr, DecidableEq

/-- Model of `openProjectActionSlot`: with a truthy chosen path and a passing
unsaved-changes check, emit `project_about_to_close_signal`, load the
project, and emit `project_new_signal` only when `loadProject` returned
a truthy value. -/
def openProjectActionSlot (s : MWState) (env : OpenSlotEnv) :
    MWState × List Event :=
  if env.chosenPath == "" then (s, [])
  else
    let c := checkForUnsavedChanges s env.check
    let s1 := c.1
    if c.2.1 then
      let out := loadProject s1 env.chosenPath env.load
      let evNew := if out.2.1.isTruthy then [Event.projectNew (some env.chosenPath)] else []
      (out.1, c.2.2 ++ Event.aboutToClose s1.project_path :: (out.2.2 ++ evNew))
    else
      (s1, c.2.2)

/-- Environment for `openRecentFileSlot`: the sender action's stored
path (`none` when there is no sender action), whether that path is an
existing file, the unsaved-changes check, and the load environment. -/
structure RecentSlotEnv where
  actionPath : Option String
  isFile : Bool
  check : CheckEnv
  load : LoadEnv
deriving Repr, DecidableEq

/-- Model of `openRecentFileSlot`: with a sender action whose path is an existing
file and a passing unsaved-changes check, emit
`project_about_to_close_signal`, load the project, and emit
`project_new_signal` only when `loadProject` returned a truthy value. -/
def openRecentFileSlot (s : MWState) (env : RecentSlotEnv) :
    MWState × List Event :=
  match env.actionPath with
  | none => (s, [])
  | some path =>
    if !env.isFile then (s, [])
    else
      let c := checkForUnsavedChanges s env.check
      let s1 := c.1
      if c.2.1 then
        let out := loadProject s1 path env.load
        let evNew := if out.2.1.isTruthy then [Event.projectNew (some path)] else []
        (out.1, c.2.2 ++ Event.aboutToClose s1.project_path :: (out.2.2 ++ evNew))
      else
        (s1, c.2.2)

/-! ## `startupLoading`: the local-server bootstrap -/

/-- Outcome of `server.connect()`: success, an `OSError` with a falsy
`errno` (the something-else-is-listening signature), or an ordinary
`OSError` with an errno (nothing listening). -/
inductive ConnectRes where
  | ok
  | errNoErrno
  | errErrno
deriving Repr, DecidableEq

/-- Environment for the bootstrap part of `startupLoading`: whether the
local server already reports connected, whether the throwaway bind to
the configured host succeeds, the outcome of `server.connect()`, the
auto-start setting, the configured server executable path (`""` when
not configured) with its file/executable checks, whether
`startLocalServer` succeeds, whether the wait-for-connection progress
dialog finished (rather than being cancelled), and whether the final
`reconnect()` succeeds. -/
structure BootstrapEnv where
  connected : Bool
  bindOk : Bool
  connectRes : ConnectRes
  autoStart : Bool
  serverPath : String
  pathIsFile : Bool
  pathIsExec : Bool
  startOk : Bool
  waitOk : Bool
  reconnectOk : Bool
deriving Repr, DecidableEq

/-- How a bootstrap run ended. -/
inductive BootstrapOutcome where
  | alreadyConnected
  | hostBindError
  | connectedExisting
  | portConflict
  | autoStartDisabled
  | noServerConfigured
  | serverBinaryMissing
  | serverBinaryNotExecutable
  | spawnFailed
  | cancelled
  | handshakeFailed
  | connectedAfterStart
deriving Repr, DecidableEq

/-- The bootstrap sequence at the top of `startupLoading`, paired with
the number of server processes spawned during the run. -/
def bootstrap (env : BootstrapEnv) : BootstrapOutcome × Nat :=
  if env.connected then (.alreadyConnected, 0)
  else if !env.bindOk then (.hostBindError, 0)
  else
    match env.connectRes with
    | .ok => (.connectedExisting, 0)
    | .errNoErrno => (.portConflict, 0)
    | .errErrno =>
      if !env.autoStart then (.autoStartDisabled, 0)
      else if env.serverPath == "" then (.noServerConfigured, 0)
      else if !env.pathIsFile then (.serverBinaryMissing, 0)
      else if !env.pathIsExec then (.serverBinaryNotExecutable, 0)
      else if env.startOk then
        if !env.waitOk then (.cancelled, 1)
        else if !env.reconnectOk then (.handshakeFailed, 1)
        else (.connectedAfterStart, 1)
      else (.spawnFailed, 0)

/-- The outcomes after which control in `startupLoading` reaches the
`_createTemporaryProject()` call instead of an early `return`. -/
def BootstrapOutcome.proceeds : BootstrapOutcome → Bool
  | .alreadyConnected => true
  | .connectedExisting => true
  | .handshakeFailed => true
  | .connectedAfterStart => true
  | _ => false

/-- Summary of one `startupLoading` run. -/
structure BootstrapRun where
  outcome : BootstrapOutcome
  spawned : Nat
  tempProjectCreated : Bool
deriving Repr, DecidableEq

/-- Model of `startupLoading`: run the bootstrap sequence; every early `return`
skips the rest of the method, while the fall-through outcomes continue
into `_createTemporaryProject()`. -/
def startupLoading (s : MWState) (env : BootstrapEnv) (tenv : TempEnv) :
    MWState × BootstrapRun :=
  let b := bootstrap env
  if b.1.proceeds then
    let out := createTemporaryProject s tenv
    (out.1, ⟨b.1, b.2, true⟩)
  else
    (s, ⟨b.1, b.2, false⟩)

/-! ## Sample fixtures used by witnesses and counterexamples -/

/-- A sample parsed local-project descriptor. -/
def tSample : JsonTopology := ⟨"local", [], 7⟩

/-- A freshly initialized window state (mirrors the `__init__` values of
`_project_settings`, `_temporary_project` and friends). -/
def baseState : MWState :=
  { project_name := "unsaved"
    project_path := none
    project_files_dir := none
    project_type := "local"
    temporary_project := true
    windowFilePath := "Unsaved project"
    windowModified := false
    topology := some tSample
    nodes := []
    recentFiles := []
    viewFilesDir := none
    projects_path := "/home/user/GNS3/projects" }

/-- A temporary project with backing files, as left by
`_createTemporaryProject`. -/
def tempState : MWState :=
  { baseState with
    project_path := some "/tmp/gns3-abc"
    project_files_dir := some "/tmp/gns3-abc-files" }

/-- A state holding one startable node that is currently started. -/
def runningState : MWState :=
  { tempState with nodes := [⟨"R1", true, true⟩] }

/-- A load environment in which every filesystem step succeeds and the
descriptor parses to `tSample`. -/
def loadEnvOk : LoadEnv := ⟨⟨some (some tSample), false, true⟩, .importError⟩

/-- A load environment in which `open(path)` raises `OSError`. -/
def loadEnvOpenFail : LoadEnv := ⟨⟨none, true, true⟩, .importError⟩

/-! ## Claim theorems -/

/-- Claim C10: `_createTemporaryProject` always ends with the state marked
temporary, the window file path set to the unsaved placeholder and the
modified flag cleared — even on its filesystem-error branch, where the
`project_path` and `project_files_dir` settings still hold the
superseded project's values. -/
theorem c10_createTemporary_always_temporary (s : MWState) (env : TempEnv) :
    ((createTemporaryProject s env).1.temporary_project = true ∧
     (createTemporaryProject s env).1.windowFilePath = "Unsaved project" ∧
     (createTemporaryProject s env).1.windowModified = false) ∧
    (env.tmpFile = none →
      (createTemporaryProject s env).1.project_path = s.project_path ∧
      (createTemporaryProject s env).1.project_files_dir = s.project_files_dir) := by
  rcases env with ⟨tf, de⟩
  cases tf <;>
    simp [createTemporaryProject, setCurrentFile, pyTruthy, resetView]

/-- Witness for C10 at a concrete failing environment: the filesystem
error leaves the previous path and files dir in place, yet the state is
temporary with the placeholder title. -/
theorem c10_witness :
    (createTemporaryProject tempState ⟨none, false⟩).1.temporary_project = true ∧
    (createTemporaryProject tempState ⟨none, false⟩).1.windowFilePath = "Unsaved project" ∧
    (createTemporaryProject tempState ⟨none, false⟩).1.project_path = tempState.project_path ∧
    (createTemporaryProject tempState ⟨none, false⟩).1.project_files_dir
      = tempState.project_files_dir := by
  have h := c10_createTemporary_always_temporary tempState ⟨none, false⟩
  exact ⟨h.1.1, h.1.2.1, (h.2 rfl).1, (h.2 rfl).2⟩

/-- Claim C3: whenever the topology reports at least one node in a running
and stoppable state, `saveProjectAs` refuses with the `NodesRunning`
outcome listing the node names, leaves the state untouched and performs
no side effect, regardless of every other input. -/
theorem c3_saveAs_refuses_when_nodes_running (s : MWState) (env : SaveAsEnv)
    (h : runningNodes s.nodes ≠ []) :
    saveProjectAs s env = (s, .nodesRunning (runningNodes s.nodes), []) := by
  cases hr : runningNodes s.nodes with
  | nil => exact absurd hr h
  | cons a t => simp [saveProjectAs, hr]

/-- Witness for C3: with one started startable node, `saveProjectAs`
returns the refusal listing it and changes nothing. -/
theorem c3_witness :
    runningNodes runningState.nodes ≠ [] ∧
    saveProjectAs runningState ⟨true, some "/home/user/GNS3/projects/p", true, true, true⟩
      = (runningState, .nodesRunning ["R1"], []) := by
  refine ⟨by decide, ?_⟩
  have h := c3_saveAs_refuses_when_nodes_running runningState
    ⟨true, some "/home/user/GNS3/projects/p", true, true, true⟩ (by decide)
  simpa [runningState, tempState, baseState, runningNodes] using h

/-- Claim C1, counterexample: `loadProject` is not all-or-nothing.  With a
path whose `open` fails, it returns the error result, yet the in-memory
topology was already reset at entry and so differs from its previous
value. -/
theorem c1_counterexample :
    (loadProject baseState "proj.gns3" loadEnvOpenFail).2.1 = LoadResult.err ∧
    (loadProject baseState "proj.gns3" loadEnvOpenFail).1.topology ≠ baseState.topology := by
  constructor
  · decide
  · decide

/-- Claim C1, amended: when `loadProject` returns an error, the previous
`project_path`, temporary flag, window file path, modified flag and
recent-files list are unchanged (the path is only swapped after the new
topology is fully constructed), but the in-memory topology has already
been reset at entry and `project_files_dir` may already have been
overwritten before the failing files-directory creation step. -/
theorem c1_load_error_preserves_path (s : MWState) (path : String) (env : LoadEnv)
    (h : (loadProject s path env).2.1 = LoadResult.err) :
    (loadProject s path env).1.project_path = s.project_path ∧
    (loadProject s path env).1.temporary_project = s.temporary_project ∧
    (loadProject s path env).1.windowFilePath = s.windowFilePath ∧
    (loadProject s path env).1.windowModified = s.windowModified ∧
    (loadProject s path env).1.recentFiles = s.recentFiles := by
  rcases env with ⟨⟨o, fde, mk⟩, conv⟩
  by_cases hext : extOf path = ".net"
  · simp [loadProject, hext] at h
  · rcases o with _ | _ | t
    · simp [loadProject, loadProjectNonNet, hext, resetView]
    · simp [loadProject, loadProjectNonNet, hext, resetView]
    · by_cases hmk : !fde && !mk
      · simp [loadProject, loadProjectNonNet, hext, hmk, resetView]
      · simp [loadProject, loadProjectNonNet, hext, hmk] at h

/-- Witness for C1 amended: a failed open leaves path, temporary flag,
window title, modified flag and recent files untouched. -/
theorem c1_witness :
    (loadProject tempState "proj.gns3" loadEnvOpenFail).2.1 = LoadResult.err ∧
    (loadProject tempState "proj.gns3" loadEnvOpenFail).1.project_path
      = tempState.project_path := by
  refine ⟨by decide, ?_⟩
  exact (c1_load_error_preserves_path tempState "proj.gns3" loadEnvOpenFail (by decide)).1

/-- Both branches of `_setCurrentFile` leave the project path setting
alone. -/
@[simp] theorem setCurrentFile_project_path (s : MWState) (p : Option String) :
    (setCurrentFile s p).project_path = s.project_path := by
  unfold setCurrentFile; split <;> simp

/-- Both branches of `_setCurrentFile` leave the files directory setting
alone. -/
@[simp] theorem setCurrentFile_project_files_dir (s : MWState) (p : Option String) :
    (setCurrentFile s p).project_files_dir = s.project_files_dir := by
  unfold setCurrentFile; split <;> simp

/-- Modelled from the spec's words, for comparison with the code: "the
descriptor path with its extension stripped" — the path minus its
`splitext` extension, whatever that extension is. -/
def specStripExtension (p : String) : String :=
  strDropRight p (extOf p).length

/-- Helper: `_createTemporaryProject` derives the files directory from
the fresh descriptor name by appending `-files`. -/
theorem createTemporary_path_filesDir (s : MWState) (env : TempEnv) (name : String)
    (h : env.tmpFile = some name) :
    (createTemporaryProject s env).1.project_path = some name ∧
    (createTemporaryProject s env).1.project_files_dir = some (name ++ "-files") := by
  rcases env with ⟨tf, de⟩
  cases tf with
  | none => simp at h
  | some n =>
    obtain rfl : n = name := by simpa using h
    simp [createTemporaryProject, setCurrentFile, pyTruthy, resetView]

/-- Helper: a successful `loadProject` sets the project path to the
loaded path and the files directory to `projectFilesDirFor path ++
"-files"`. -/
theorem load_ok_filesDir (s : MWState) (path : String) (env : LoadEnv)
    (h : (loadProject s path env).2.1 = LoadResult.ok) :
    (loadProject s path env).1.project_path = some path ∧
    (loadProject s path env).1.project_files_dir
      = some (projectFilesDirFor path ++ "-files") := by
  rcases env with ⟨⟨o, fde, mk⟩, conv⟩
  by_cases hext : extOf path = ".net"
  · simp [loadProject, hext] at h
  · rcases o with _ | _ | t
    · simp [loadProject, loadProjectNonNet, hext] at h
    · simp [loadProject, loadProjectNonNet, hext] at h
    · by_cases hmk : !fde && !mk
      · simp [loadProject, loadProjectNonNet, hext, hmk] at h
      · simp [loadProject, loadProjectNonNet, hext, hmk, setCurrentFile, pyTruthy,
              resetView]
        by_cases hp : path = "" <;> simp [hp]

/-- Helper: a `saveProjectAs` that completes with a successful save
produces a descriptor path `base ++ ".gns3"` and files directory
`base ++ "-files"` for the same stem `base`. -/
theorem saveAs_saved_filesDir (s : MWState) (env : SaveAsEnv) (dir : String)
    (hd : env.fileDialog = some dir)
    (h : (saveProjectAs s env).2.1 = SaveAsResult.savedTrue) :
    ∃ base, (saveProjectAs s env).1.project_path = some (base ++ ".gns3") ∧
      (saveProjectAs s env).1.project_files_dir = some (base ++ "-files") := by
  rcases env with ⟨pdo, fdlg, nfo, sdo, swo⟩
  obtain rfl : fdlg = some dir := hd
  cases hr : (runningNodes s.nodes).isEmpty with
  | false => simp [saveProjectAs, hr] at h
  | true =>
    cases pdo with
    | false => simp [saveProjectAs, hr] at h
    | true =>
      cases nfo with
      | false => simp [saveProjectAs, hr] at h
      | true =>
        cases sdo with
        | false => simp [saveProjectAs, hr] at h
        | true =>
          cases swo with
          | false => simp [saveProjectAs, hr, saveProject] at h
          | true =>
            refine ⟨dir ++ "/" ++ basenameStr dir, ?_, ?_⟩ <;>
              simp [saveProjectAs, hr, saveProject]

/-- Claim C7, counterexample: for a path whose extension is neither `.gns3`
nor `.net`, a successful `loadProject` keeps the extension: the files
directory is `proj.xyz-files`, not the spec's
extension-stripped `proj-files`. -/
theorem c7_counterexample :
    (loadProject baseState "proj.xyz" loadEnvOk).2.1 = LoadResult.ok ∧
    (loadProject baseState "proj.xyz" loadEnvOk).1.project_files_dir
      = some "proj.xyz-files" ∧
    specStripExtension "proj.xyz" ++ "-files" = "proj-files" ∧
    ("proj.xyz-files" : String) ≠ "proj-files" := by
  refine ⟨by decide, by decide, by decide, by decide⟩

/-- Claim C7, amended: after each operation that sets the descriptor path
and completes, the files directory is the path with a trailing `.gns3`
(or, unreachably for genuine legacy loads, `.net`) suffix stripped when
present — other extensions are kept, not stripped — followed by
`-files`: `_createTemporaryProject` uses the extensionless temp name
directly, a successful `loadProject` uses `projectFilesDirFor`, and a
successful `saveProjectAs` produces path `base ++ ".gns3"` with files
directory `base ++ "-files"`. -/
theorem c7_filesDir_convention :
    (∀ (s : MWState) (env : TempEnv) (name : String), env.tmpFile = some name →
      (createTemporaryProject s env).1.project_path = some name ∧
      (createTemporaryProject s env).1.project_files_dir = some (name ++ "-files")) ∧
    (∀ (s : MWState) (path : String) (env : LoadEnv),
      (loadProject s path env).2.1 = LoadResult.ok →
      (loadProject s path env).1.project_path = some path ∧
      (loadProject s path env).1.project_files_dir
        = some (projectFilesDirFor path ++ "-files")) ∧
    (∀ (s : MWState) (env : SaveAsEnv) (dir : String),
      env.fileDialog = some dir → (saveProjectAs s env).2.1 = SaveAsResult.savedTrue →
      ∃ base, (saveProjectAs s env).1.project_path = some (base ++ ".gns3") ∧
        (saveProjectAs s env).1.project_files_dir = some (base ++ "-files")) :=
  ⟨createTemporary_path_filesDir, load_ok_filesDir, saveAs_saved_filesDir⟩

/-- Witness for C7 at concrete inputs: all three operations follow the
suffix convention. -/
theorem c7_witness :
    ((createTemporaryProject baseState ⟨some "/tmp/gns3-x", false⟩).1.project_files_dir
      = some "/tmp/gns3-x-files") ∧
    ((loadProject baseState "proj.gns3" loadEnvOk).1.project_files_dir
      = some "proj-files") ∧
    (∃ base,
      (saveProjectAs baseState ⟨true, some "/home/user/GNS3/projects/p", true, true, true⟩).1.project_path
        = some (base ++ ".gns3") ∧
      (saveProjectAs baseState ⟨true, some "/home/user/GNS3/projects/p", true, true, true⟩).1.project_files_dir
        = some (base ++ "-files")) := by
  refine ⟨?_, ?_, ?_⟩
  · exact (c7_filesDir_convention.1 baseState ⟨some "/tmp/gns3-x", false⟩ "/tmp/gns3-x" rfl).2
  · have h := (c7_filesDir_convention.2.1 baseState "proj.gns3" loadEnvOk (by decide)).2
    simpa using h
  · exact c7_filesDir_convention.2.2 baseState
      ⟨true, some "/home/user/GNS3/projects/p", true, true, true⟩
      "/home/user/GNS3/projects/p" rfl (by decide)

/-- Claim C2, counterexample: a host bind failure — one of the bootstrap
failure outcomes named by the claim — makes `startupLoading` return
early: no temporary project is created and the application does not
continue into project setup. -/
theorem c2_counterexample :
    (startupLoading baseState
        ⟨false, false, ConnectRes.errErrno, true, "", true, true, true, true, true⟩
        ⟨none, false⟩).2
      = ⟨BootstrapOutcome.hostBindError, 0, false⟩ := by
  decide

/-- Claim C2, amended: a temporary project is created after the bootstrap
run exactly when the run ended as already-connected, connected to an
existing server, connected after a spawn, or with the non-fatal failed
final reconnect; every other bootstrap failure (host bind failure, port
conflict, auto-start disabled, missing or non-executable or
unconfigured server binary, spawn failure, cancelled wait) aborts
`startupLoading` before the temporary project is created. -/
theorem c2_bootstrap_failure_aborts_startup (s : MWState) (env : BootstrapEnv)
    (tenv : TempEnv) :
    (startupLoading s env tenv).2.tempProjectCreated = true ↔
      ((startupLoading s env tenv).2.outcome = BootstrapOutcome.alreadyConnected ∨
       (startupLoading s env tenv).2.outcome = BootstrapOutcome.connectedExisting ∨
       (startupLoading s env tenv).2.outcome = BootstrapOutcome.handshakeFailed ∨
       (startupLoading s env tenv).2.outcome = BootstrapOutcome.connectedAfterStart) := by
  rcases hb : bootstrap env with ⟨o, n⟩
  cases o <;> simp [startupLoading, hb, BootstrapOutcome.proceeds]

/-- Claim C4, counterexample: with the endpoint unreachable (ordinary
connection error), no server executable configured but auto-start
disabled, the run ends quietly as `autoStartDisabled`, not as the
`NoServerConfigured` error the claim requires (it still spawns
nothing). -/
theorem c4_counterexample :
    bootstrap ⟨false, true, ConnectRes.errErrno, false, "", true, true, true, true, true⟩
      = (BootstrapOutcome.autoStartDisabled, 0) ∧
    BootstrapOutcome.autoStartDisabled ≠ BootstrapOutcome.noServerConfigured := by
  decide

/-- Claim C4, amended: (1) with the endpoint already connected the run ends
as `alreadyConnected` with no spawn; (2) with the endpoint unreachable
(ordinary connection error), the host bindable, auto-start enabled and
no server executable configured, the run ends as `noServerConfigured`
with no spawn; and (3) no run ever spawns more than one process. -/
theorem c4_bootstrap_spawn_discipline (env : BootstrapEnv) :
    (env.connected = true → bootstrap env = (BootstrapOutcome.alreadyConnected, 0)) ∧
    (env.connected = false → env.bindOk = true → env.connectRes = ConnectRes.errErrno →
      env.autoStart = true → env.serverPath = "" →
      bootstrap env = (BootstrapOutcome.noServerConfigured, 0)) ∧
    (bootstrap env).2 ≤ 1 := by
  refine ⟨fun h => by simp [bootstrap, h], fun h1 h2 h3 h4 h5 => ?_, ?_⟩
  · simp [bootstrap, h1, h2, h3, h4, h5]
  · unfold bootstrap
    repeat' split
    all_goals simp

/-- Witness for C4 at concrete environments: an already-connected run
and an unreachable-unconfigured run, both spawning nothing. -/
theorem c4_witness :
    bootstrap ⟨true, true, ConnectRes.ok, true, "", true, true, true, true, true⟩
      = (BootstrapOutcome.alreadyConnected, 0) ∧
    bootstrap ⟨false, true, ConnectRes.errErrno, true, "", true, true, true, true, true⟩
      = (BootstrapOutcome.noServerConfigured, 0) := by
  constructor
  · exact (c4_bootstrap_spawn_discipline
      ⟨true, true, ConnectRes.ok, true, "", true, true, true, true, true⟩).1 rfl
  · exact (c4_bootstrap_spawn_discipline
      ⟨false, true, ConnectRes.errErrno, true, "", true, true, true, true, true⟩).2.1
      rfl rfl rfl rfl rfl

/-- Helper for C8: the update step on a duplicate-free list of at most
`maxRecentFiles` entries puts the new path first, keeps the list
duplicate-free and bounded, preserves the relative order of the
remaining entries, and drops exactly the oldest entry when the bound
would be exceeded. -/
theorem recentInsert_spec (l : List String) (path : String)
    (hnd : l.Nodup) (hlen : l.length ≤ maxRecentFiles) :
    (recentInsert l path).head? = some path ∧
    (recentInsert l path).Nodup ∧
    (recentInsert l path).length ≤ maxRecentFiles ∧
    (recentInsert l path).tail.Sublist l ∧
    (path ∉ l → l.length = maxRecentFiles →
      recentInsert l path = path :: l.dropLast) := by
  classical
  have core : ∀ m : List String, m.Nodup → path ∉ m → m.Sublist l →
      m.length ≤ maxRecentFiles →
      ∀ r, r = (if maxRecentFiles < (path :: m).length
                then (path :: m).dropLast else path :: m) →
      r.head? = some path ∧ r.Nodup ∧ r.length ≤ maxRecentFiles ∧
        r.tail.Sublist l ∧
        (m.length = maxRecentFiles → r = path :: m.dropLast) := by
    intro m hmnd hmnotin hmsub hmlen r hr
    by_cases hlt : maxRecentFiles < (path :: m).length
    · have hm5 : m.length = maxRecentFiles := by
        simp only [List.length_cons] at hlt
        omega
      obtain ⟨b, u, rfl⟩ : ∃ b u, m = b :: u := by
        cases m with
        | nil => simp [maxRecentFiles] at hm5
        | cons b u => exact ⟨b, u, rfl⟩
      have hdl : r = path :: (b :: u).dropLast := by
        rw [hr, if_pos hlt]; rfl
      subst hdl
      refine ⟨rfl, ?_, ?_, ?_, fun _ => rfl⟩
      · rw [List.nodup_cons]
        refine ⟨fun hmem => hmnotin (List.dropLast_sublist (b :: u) |>.mem hmem), ?_⟩
        exact hmnd.sublist (List.dropLast_sublist (b :: u))
      · simp only [List.length_cons, List.length_dropLast]
        simp only [List.length_cons] at hm5
        omega
      · exact (List.dropLast_sublist (b :: u)).trans hmsub
    · have hre : r = path :: m := by rw [hr, if_neg hlt]
      subst hre
      refine ⟨rfl, ?_, ?_, hmsub, ?_⟩
      · exact List.nodup_cons.mpr ⟨hmnotin, hmnd⟩
      · simp only [List.length_cons] at hlt ⊢
        omega
      · intro hm5
        simp only [List.length_cons] at hlt
        omega
  by_cases hc : path ∈ l
  · have hcc : l.contains path = true := by
      simpa using hc
    have h1 : recentInsert l path
        = (if maxRecentFiles < (path :: l.erase path).length
           then (path :: l.erase path).dropLast else path :: l.erase path) := by
      simp [recentInsert, hcc, hc]
    have h2 := core (l.erase path) (hnd.erase path)
      (by simp [hnd.mem_erase_iff]) (l.erase_sublist path)
      (le_trans (l.erase_sublist path).length_le hlen) _ rfl
    rw [h1]
    exact ⟨h2.1, h2.2.1, h2.2.2.1, h2.2.2.2.1, fun hnotin _ => absurd hc hnotin⟩
  · have hcc : l.contains path = false := by
      simpa using hc
    have h1 : recentInsert l path
        = (if maxRecentFiles < (path :: l).length
           then (path :: l).dropLast else path :: l) := by
      simp [recentInsert, hcc, hc]
    have h2 := core l hnd hc (List.Sublist.refl l) hlen _ rfl
    rw [h1]
    exact ⟨h2.1, h2.2.1, h2.2.2.1, h2.2.2.2.1, fun _ h5 => h2.2.2.2.2 h5⟩

/-- Claim C8: for every persisted recent-files list (duplicate-free,
bounded by 5, as this function itself maintains) and every newly
recorded path, the updated list has the new path first, is
duplicate-free, has length at most 5, preserves the relative order of
the remaining previous entries, and drops the oldest entry when the
bound would be exceeded. -/
theorem c8_recent_files_update (stored : List String) (path : String)
    (hnd : stored.Nodup) (hlen : stored.length ≤ 5) :
    (updateRecentFileSettings stored path).head? = some path ∧
    (updateRecentFileSettings stored path).Nodup ∧
    (updateRecentFileSettings stored path).length ≤ 5 ∧
    (updateRecentFileSettings stored path).tail.Sublist stored ∧
    (path ∉ readRecentFiles stored → (readRecentFiles stored).length = 5 →
      updateRecentFileSettings stored path
        = path :: (readRecentFiles stored).dropLast) := by
  have hsub : (readRecentFiles stored).Sublist stored := List.filter_sublist stored
  have h := recentInsert_spec (readRecentFiles stored) path
    (hnd.sublist hsub) (le_trans hsub.length_le hlen)
  exact ⟨h.1, h.2.1, h.2.2.1, h.2.2.2.1.trans hsub, h.2.2.2.2⟩

/-- Witness for C8: recording a new path over a full five-entry list
drops the oldest entry and keeps most-recent-first order. -/
theorem c8_witness :
    (["a", "b", "c", "d", "e"] : List String).Nodup ∧
    updateRecentFileSettings ["a", "b", "c", "d", "e"] "f"
      = ["f", "a", "b", "c", "d"] := by
  refine ⟨by decide, ?_⟩
  have h := c8_recent_files_update ["a", "b", "c", "d", "e"] "f"
    (by decide) (by decide)
  have h5 := h.2.2.2.2 (by decide) (by decide)
  simpa [readRecentFiles] using h5

/-- A non-empty string append used by the save path is never the empty
string (so `_setCurrentFile` takes its truthy branch on it). -/
theorem append_gns3_ne_empty (a : String) : a ++ ".gns3" ≠ "" := by
  intro h
  have h2 : (a ++ ".gns3").data = ("" : String).data := by rw [h]
  have h3 : (a ++ ".gns3").data = a.data ++ ".gns3".data := rfl
  rw [h3] at h2
  rcases List.append_eq_nil.mp h2 with ⟨-, h5⟩
  exact absurd h5 (by decide)

/-- With a truthy path, `_setCurrentFile` clears the temporary flag. -/
theorem setCurrentFile_truthy_not_temporary (s : MWState) (p : String)
    (hp : p ≠ "") :
    (setCurrentFile s (some p)).temporary_project = false := by
  simp [setCurrentFile, pyTruthy, hp]

/-- Claim C5, counterexample: an invocation of `saveProjectAs` from a
temporary project that passes the running-nodes check and is not
cancelled at the destination dialog, but whose final descriptor write
fails: the transfer and the temporary-project deletion have happened,
yet the resulting state is still marked temporary, contradicting the
claim that such invocations always end with `isTemporary == false`. -/
theorem c5_counterexample :
    (saveProjectAs tempState
        ⟨true, some "/home/user/GNS3/projects/p", true, true, false⟩).2.1
      = SaveAsResult.savedFalse ∧
    (saveProjectAs tempState
        ⟨true, some "/home/user/GNS3/projects/p", true, true, false⟩).1.temporary_project
      = true ∧
    Event.transfer "/tmp/gns3-abc-files" "/home/user/GNS3/projects/p/p-files" true
      ∈ (saveProjectAs tempState
        ⟨true, some "/home/user/GNS3/projects/p", true, true, false⟩).2.2 ∧
    Event.deleteTempFiles "/tmp/gns3-abc-files" "/tmp/gns3-abc"
      ∈ (saveProjectAs tempState
        ⟨true, some "/home/user/GNS3/projects/p", true, true, false⟩).2.2 := by
  refine ⟨by decide, by decide, by decide, by decide⟩

/-- Claim C5, amended: for every `saveProjectAs` invocation that passes the
running-nodes check, is not cancelled at the destination dialog, and in
which directory creation and the final descriptor write succeed: the
transfer from the old files dir to the new one is a move exactly when
the previous state was temporary; the old temporary project's backing
files are deleted (when the previous state was temporary and had a
path); and the resulting state has `isTemporary == false`.  (When the
final write fails, everything up to the deletion still happens but the
state stays marked temporary.) -/
theorem c5_saveAs_transfer_discipline (s : MWState) (env : SaveAsEnv) (dir : String)
    (hrun : runningNodes s.nodes = [])
    (hpd : env.projectsDirOk = true) (hd : env.fileDialog = some dir)
    (hnf : env.newFilesDirOk = true) (hsd : env.subDirsOk = true)
    (hw : env.saveWriteOk = true) :
    (Event.transfer (s.project_files_dir.getD "")
        (dir ++ "/" ++ basenameStr dir ++ "-files") s.temporary_project
      ∈ (saveProjectAs s env).2.2) ∧
    (s.temporary_project = true → pyTruthy s.project_path = true →
      Event.deleteTempFiles (s.project_files_dir.getD "") (s.project_path.getD "")
        ∈ (saveProjectAs s env).2.2) ∧
    (saveProjectAs s env).1.temporary_project = false ∧
    (saveProjectAs s env).2.1 = SaveAsResult.savedTrue := by
  rcases env with ⟨pdo, fdlg, nfo, sdo, swo⟩
  obtain rfl : fdlg = some dir := hd
  cases hpd; cases hnf; cases hsd; cases hw
  have hre : (runningNodes s.nodes).isEmpty = true := by simp [hrun]
  refine ⟨?_, ?_, ?_, ?_⟩
  · simp [saveProjectAs, hre, saveProject]
  · intro ht hp
    simp [saveProjectAs, hre, saveProject, deleteTemporaryProject, ht, hp]
  · have hne := append_gns3_ne_empty (dir ++ "/" ++ basenameStr dir)
    simp [saveProjectAs, hre, saveProject,
          setCurrentFile_truthy_not_temporary _ _ hne]
  · simp [saveProjectAs, hre, saveProject]

/-- Witness for C5: saving a temporary project to a fresh destination
with every step succeeding moves the files, deletes the old temporary
files and leaves a non-temporary state. -/
theorem c5_witness :
    Event.transfer "/tmp/gns3-abc-files" "/home/user/GNS3/projects/p/p-files" true
      ∈ (saveProjectAs tempState
        ⟨true, some "/home/user/GNS3/projects/p", true, true, true⟩).2.2 ∧
    Event.deleteTempFiles "/tmp/gns3-abc-files" "/tmp/gns3-abc"
      ∈ (saveProjectAs tempState
        ⟨true, some "/home/user/GNS3/projects/p", true, true, true⟩).2.2 ∧
    (saveProjectAs tempState
        ⟨true, some "/home/user/GNS3/projects/p", true, true, true⟩).1.temporary_project
      = false ∧
    (saveProjectAs tempState
        ⟨true, some "/home/user/GNS3/projects/p", true, true, true⟩).2.1
      = SaveAsResult.savedTrue := by
  have h := c5_saveAs_transfer_discipline tempState
    ⟨true, some "/home/user/GNS3/projects/p", true, true, true⟩
    "/home/user/GNS3/projects/p" (by decide) rfl rfl rfl rfl rfl
  refine ⟨?_, ?_, h.2.2.1, h.2.2.2⟩
  · have h1 := h.1
    simpa [tempState, baseState, basenameStr] using h1
  · have h2 := h.2.1 rfl (by decide)
    simpa [tempState, baseState] using h2

/-! ## Event-trace ordering (infrastructure for the signal claims) -/

/-- No lifecycle signal (`project_new`, `project_about_to_close`) occurs
in the trace. -/
def NoSignals (tr : List Event) : Prop :=
  ∀ e ∈ tr, e.isNew = false ∧ e.isClosing = false

/-- No temporary-project teardown occurs in the trace. -/
def NoTeardown (tr : List Event) : Prop :=
  ∀ e ∈ tr, e.isTeardown = false

theorem noSignals_append {a b : List Event}
    (ha : NoSignals a) (hb : NoSignals b) : NoSignals (a ++ b) := by
  intro e he
  rcases List.mem_append.mp he with h | h
  · exact ha e h
  · exact hb e h

theorem noTeardown_append {a b : List Event}
    (ha : NoTeardown a) (hb : NoTeardown b) : NoTeardown (a ++ b) := by
  intro e he
  rcases List.mem_append.mp he with h | h
  · exact ha e h
  · exact hb e h

/-- Lemma: `takeWhile` walks through a prefix whose members all satisfy the
predicate. -/
theorem takeWhile_append_forall {α : Type} (p : α → Bool) (l1 l2 : List α)
    (h : ∀ a ∈ l1, p a = true) :
    (l1 ++ l2).takeWhile p = l1 ++ l2.takeWhile p := by
  induction l1 with
  | nil => simp
  | cons a t ih =>
    have ha := h a (by simp)
    have ht : ∀ x ∈ t, p x = true := fun x hx => h x (by simp [hx])
    simp [List.takeWhile_cons, ha, ih ht]

/-- Lemma: `dropWhile` discards a prefix whose members all satisfy the
predicate. -/
theorem dropWhile_append_forall {α : Type} (p : α → Bool) (l1 l2 : List α)
    (h : ∀ a ∈ l1, p a = true) :
    (l1 ++ l2).dropWhile p = l2.dropWhile p := by
  induction l1 with
  | nil => simp
  | cons a t ih =>
    have ha := h a (by simp)
    have ht : ∀ x ∈ t, p x = true := fun x hx => h x (by simp [hx])
    simp [List.dropWhile_cons, ha, ih ht]

/-- Lemma: `dropWhile` on a list all of whose members satisfy the predicate is
empty. -/
theorem dropWhile_eq_nil_forall {α : Type} (p : α → Bool) (l : List α)
    (h : ∀ a ∈ l, p a = true) : l.dropWhile p = [] := by
  induction l with
  | nil => simp
  | cons a t ih =>
    have ha := h a (by simp)
    have ht : ∀ x ∈ t, p x = true := fun x hx => h x (by simp [hx])
    simp [List.dropWhile_cons, ha, ih ht]

/-- The ordering discipline the lifecycle slots must obey: in the event
trace, no `project_new` emission occurs before the first
`project_about_to_close` emission, and no temporary-project teardown
occurs at or after it (teardown is sequenced strictly before the
closing notification; the opened notification strictly after it). -/
def closingDiscipline (tr : List Event) : Prop :=
  (∀ e ∈ tr.takeWhile (fun e => !e.isClosing), e.isNew = false) ∧
  (∀ e ∈ tr.dropWhile (fun e => !e.isClosing), e.isTeardown = false)

/-- A trace with no lifecycle signal trivially obeys the discipline. -/
theorem closingDiscipline_plain (tr : List Event)
    (h : NoSignals tr) : closingDiscipline tr := by
  constructor
  · intro e he
    exact (h e ((tr.takeWhile_sublist _).subset he)).1
  · intro e he
    rw [dropWhile_eq_nil_forall _ _ (fun a ha => by simp [(h a ha).2])] at he
    simp at he

/-- A trace made of a signal-free prefix, the closing emission, and a
teardown-free remainder obeys the discipline. -/
theorem closingDiscipline_parts (pre rest : List Event) (p : Option String)
    (hpre : NoSignals pre) (hrest : NoTeardown rest) :
    closingDiscipline (pre ++ Event.aboutToClose p :: rest) := by
  have hpreC : ∀ a ∈ pre, (!a.isClosing) = true := fun a ha => by
    simp [(hpre a ha).2]
  constructor
  · rw [takeWhile_append_forall _ _ _ hpreC]
    intro e he
    rw [show ((Event.aboutToClose p :: rest).takeWhile fun e => !e.isClosing) = []
          by simp [List.takeWhile_cons, Event.isClosing]] at he
    rw [List.append_nil] at he
    exact (hpre e he).1
  · rw [dropWhile_append_forall _ _ _ hpreC]
    intro e he
    rw [show ((Event.aboutToClose p :: rest).dropWhile fun e => !e.isClosing)
          = Event.aboutToClose p :: rest
          by simp [List.dropWhile_cons, Event.isClosing]] at he
    rcases List.mem_cons.mp he with rfl | h
    · rfl
    · exact hrest e h

/-! ### The event lists each operation can produce -/

/-- Lemma: `saveProject` emits no lifecycle signal and no teardown. -/
theorem saveProject_events (s : MWState) (p : String) (w : Bool) :
    NoSignals (saveProject s p w).2.2 ∧ NoTeardown (saveProject s p w).2.2 := by
  cases w <;>
    simp [saveProject, NoSignals, NoTeardown, Event.isNew, Event.isClosing,
      Event.isTeardown]

/-- Lemma: `_deleteTemporaryProject` emits no lifecycle signal. -/
theorem deleteTemp_events (s : MWState) :
    NoSignals (deleteTemporaryProject s) := by
  unfold deleteTemporaryProject
  split <;>
    simp [NoSignals, Event.isNew, Event.isClosing]

/-- Lemma: `saveProjectAs` emits no lifecycle signal. -/
theorem saveAs_events (s : MWState) (env : SaveAsEnv) :
    NoSignals (saveProjectAs s env).2.2 := by
  rcases env with ⟨pdo, fdlg, nfo, sdo, swo⟩
  have hdt := deleteTemp_events s
  cases hre : (runningNodes s.nodes).isEmpty with
  | false => simp [saveProjectAs, hre, NoSignals]
  | true =>
    cases pdo with
    | false => simp [saveProjectAs, hre, NoSignals]
    | true =>
      cases fdlg with
      | none =>
        simp [saveProjectAs, hre, NoSignals, Event.isNew, Event.isClosing]
      | some dir =>
        cases nfo with
        | false =>
          simp [saveProjectAs, hre, NoSignals, Event.isNew, Event.isClosing]
        | true =>
          cases sdo with
          | false =>
            simp [saveProjectAs, hre, NoSignals, Event.isNew, Event.isClosing]
          | true =>
            intro e he
            simp only [saveProjectAs, hre, Bool.not_true, Bool.false_eq_true,
              if_false, List.append_assoc, List.mem_append, List.mem_cons,
              List.not_mem_nil, or_false] at he
            rcases he with (rfl | rfl | rfl) | rfl | he | he
            · exact ⟨rfl, rfl⟩
            · exact ⟨rfl, rfl⟩
            · exact ⟨rfl, rfl⟩
            · exact ⟨rfl, rfl⟩
            · exact hdt e he
            · exact (saveProject_events _ _ swo).1 e he

/-- Lemma: `checkForUnsavedChanges` emits no lifecycle signal. -/
theorem check_events (s : MWState) (env : CheckEnv) :
    NoSignals (checkForUnsavedChanges s env).2.2 := by
  rcases env with ⟨r, sae, swo⟩
  cases hw : s.windowModified with
  | false =>
    intro e he
    simp only [checkForUnsavedChanges, hw, Bool.false_eq_true, if_false] at he
    exact deleteTemp_events s e he
  | true =>
    cases r with
    | save =>
      cases ht : s.temporary_project with
      | true =>
        intro e he
        simp only [checkForUnsavedChanges, hw, ht, if_true] at he
        exact saveAs_events s sae e he
      | false =>
        intro e he
        simp only [checkForUnsavedChanges, hw, ht, Bool.false_eq_true,
          if_false] at he
        exact (saveProject_events s (s.project_path.getD "") swo).1 e he
    | cancel =>
      simp [checkForUnsavedChanges, hw, NoSignals]
    | discard =>
      intro e he
      simp only [checkForUnsavedChanges, hw] at he
      exact deleteTemp_events s e he

/-- The non-legacy load branch emits no lifecycle signal and no
teardown. -/
theorem loadNonNet_events (s : MWState) (p : String) (env : LoadFsEnv) :
    NoSignals (loadProjectNonNet s p env).2.2 ∧
    NoTeardown (loadProjectNonNet s p env).2.2 := by
  rcases env with ⟨o, fde, mk⟩
  rcases o with _ | _ | t <;> cases fde <;> cases mk <;>
    simp [loadProjectNonNet, NoSignals, NoTeardown, Event.isNew,
      Event.isClosing, Event.isTeardown]

/-- Lemma: `loadProject` (including the conversion path) emits no lifecycle
signal and no teardown. -/
theorem load_events (s : MWState) (path : String) (env : LoadEnv) :
    NoSignals (loadProject s path env).2.2 ∧
    NoTeardown (loadProject s path env).2.2 := by
  by_cases hext : extOf path = ".net"
  · have hconv : NoSignals (convertOldProject (resetView s) path env.convert).2 ∧
        NoTeardown (convertOldProject (resetView s) path env.convert).2 := by
      rcases hc : env.convert with _ | _ | _ | _ | ⟨pp, pn, nested⟩
      · simp [convertOldProject, NoSignals, NoTeardown]
      · simp [convertOldProject, NoSignals, NoTeardown]
      · simp [convertOldProject, NoSignals, NoTeardown]
      · simp [convertOldProject, NoSignals, NoTeardown]
      · constructor <;> intro e he <;>
          simp only [convertOldProject, List.mem_cons] at he
        · rcases he with rfl | he
          · exact ⟨rfl, rfl⟩
          · exact (loadNonNet_events _ _ nested).1 e he
        · rcases he with rfl | he
          · rfl
          · exact (loadNonNet_events _ _ nested).2 e he
    constructor <;> intro e he <;>
      simp only [loadProject, hext, if_true, List.mem_cons] at he
    · rcases he with rfl | he
      · exact ⟨rfl, rfl⟩
      · exact hconv.1 e he
    · rcases he with rfl | he
      · rfl
      · exact hconv.2 e he
  · constructor <;> intro e he <;>
      simp only [loadProject, hext, if_false, List.mem_cons] at he
    · rcases he with rfl | he
      · exact ⟨rfl, rfl⟩
      · exact (loadNonNet_events _ _ env.fs).1 e he
    · rcases he with rfl | he
      · rfl
      · exact (loadNonNet_events _ _ env.fs).2 e he

/-- Lemma: `_createTemporaryProject` emits no lifecycle signal and no
teardown. -/
theorem createTemp_events (s : MWState) (env : TempEnv) :
    NoSignals (createTemporaryProject s env).2 ∧
    NoTeardown (createTemporaryProject s env).2 := by
  rcases env with ⟨tf, de⟩
  rcases tf with _ | name <;> cases de <;>
    simp [createTemporaryProject, NoSignals, NoTeardown, Event.isNew,
      Event.isClosing, Event.isTeardown]


/-- Claim C6: in every new-project and open-project transition, the
`project_about_to_close` notification (emitted after the
unsaved-changes check, which performs or skips the teardown of a
temporary predecessor) is delivered strictly before the `project_new`
notification for the new project: the trace obeys `closingDiscipline` —
no opened notification before the first closing notification, and no
teardown at or after it. -/
theorem c6_closing_before_opened (s : MWState) (env1 : NewSlotEnv)
    (env2 : OpenSlotEnv) :
    closingDiscipline (newProjectActionSlot s env1).2 ∧
    closingDiscipline (openProjectActionSlot s env2).2 := by
  constructor
  · rcases hc : checkForUnsavedChanges s env1.check with ⟨s1, ok, ev1⟩
    have hev1 : NoSignals ev1 := by
      have h := check_events s env1.check
      rw [hc] at h
      exact h
    cases ok with
    | false =>
      have htr : (newProjectActionSlot s env1).2 = ev1 := by
        simp [newProjectActionSlot, hc]
      rw [htr]
      exact closingDiscipline_plain _ hev1
    | true =>
      by_cases hd : env1.dialogCreate = true
      · have htr : (newProjectActionSlot s env1).2
            = ev1 ++ Event.aboutToClose s1.project_path ::
                (Event.resetView :: [Event.projectNew (resetView s1).project_path]) := by
          simp [newProjectActionSlot, hc, hd]
        rw [htr]
        apply closingDiscipline_parts _ _ _ hev1
        intro e he
        rcases List.mem_cons.mp he with rfl | he2
        · rfl
        · rcases List.mem_cons.mp he2 with rfl | he3
          · rfl
          · simp at he3
      · have htr : (newProjectActionSlot s env1).2
            = ev1 ++ Event.aboutToClose s1.project_path ::
                ((createTemporaryProject s1 env1.tempEnv).2
                  ++ [Event.projectNew
                        (createTemporaryProject s1 env1.tempEnv).1.project_path]) := by
          simp [newProjectActionSlot, hc, hd]
        rw [htr]
        apply closingDiscipline_parts _ _ _ hev1
        apply noTeardown_append (createTemp_events s1 env1.tempEnv).2
        intro e he
        rcases List.mem_cons.mp he with rfl | he2
        · rfl
        · simp at he2
  · by_cases hp : env2.chosenPath = ""
    · have htr : (openProjectActionSlot s env2).2 = [] := by
        simp [openProjectActionSlot, hp]
      rw [htr]
      exact closingDiscipline_plain _ (by intro e he; simp at he)
    · have hq : (env2.chosenPath == "") = false := by
        simp [hp]
      rcases hc : checkForUnsavedChanges s env2.check with ⟨s1, ok, ev1⟩
      have hev1 : NoSignals ev1 := by
        have h := check_events s env2.check
        rw [hc] at h
        exact h
      cases ok with
      | false =>
        have htr : (openProjectActionSlot s env2).2 = ev1 := by
          simp [openProjectActionSlot, hq, hc]
        rw [htr]
        exact closingDiscipline_plain _ hev1
      | true =>
        have htr : (openProjectActionSlot s env2).2
            = ev1 ++ Event.aboutToClose s1.project_path ::
                ((loadProject s1 env2.chosenPath env2.load).2.2
                  ++ (if (loadProject s1 env2.chosenPath env2.load).2.1.isTruthy
                      then [Event.projectNew (some env2.chosenPath)] else [])) := by
          simp [openProjectActionSlot, hq, hc]
        rw [htr]
        apply closingDiscipline_parts _ _ _ hev1
        apply noTeardown_append (load_events s1 env2.chosenPath env2.load).2
        intro e he
        split at he
        · rcases List.mem_cons.mp he with rfl | he2
          · rfl
          · simp at he2
        · simp at he

/-- Claim C9: for every path whose `splitext` extension is `.net`,
`loadProject` takes the conversion branch and returns the bare `return`
value, which is falsy — even when the conversion succeeds and the
nested recursive load of the converted project succeeds; consequently
`openProjectActionSlot` and `openRecentFileSlot`, which gate the
`project_new` notification on `loadProject`'s return value, never emit
that notification for such a path. -/
theorem c9_legacy_net_load_falsy (path : String)
    (hext : extOf path = ".net") :
    (∀ (s : MWState) (env : LoadEnv),
      (loadProject s path env).2.1 = LoadResult.netReturn) ∧
    LoadResult.netReturn.isTruthy = false ∧
    (∀ (s2 : MWState) (env : OpenSlotEnv), env.chosenPath = path →
      ∀ e ∈ (openProjectActionSlot s2 env).2, e.isNew = false) ∧
    (∀ (s3 : MWState) (env : RecentSlotEnv), env.actionPath = some path →
      ∀ e ∈ (openRecentFileSlot s3 env).2, e.isNew = false) := by
  have hp0 : ¬path = "" := by
    intro h
    rw [h] at hext
    exact absurd hext (by decide)
  have hnet : ∀ (s : MWState) (env : LoadEnv),
      (loadProject s path env).2.1 = LoadResult.netReturn := by
    intro s env
    simp [loadProject, hext]
  refine ⟨hnet, rfl, ?_, ?_⟩
  · intro s2 env hcp
    have hq : (env.chosenPath == "") = false := by
      simp [hcp, hp0]
    rcases hc : checkForUnsavedChanges s2 env.check with ⟨s1, ok, ev1⟩
    have hev1 : NoSignals ev1 := by
      have h := check_events s2 env.check
      rw [hc] at h
      exact h
    cases ok with
    | false =>
      have htr : (openProjectActionSlot s2 env).2 = ev1 := by
        simp [openProjectActionSlot, hq, hc]
      rw [htr]
      exact fun e he => (hev1 e he).1
    | true =>
      have hfal : (loadProject s1 env.chosenPath env.load).2.1.isTruthy = false := by
        rw [hcp, hnet s1 env.load]
        rfl
      have htr : (openProjectActionSlot s2 env).2
          = ev1 ++ Event.aboutToClose s1.project_path ::
              (loadProject s1 env.chosenPath env.load).2.2 := by
        simp [openProjectActionSlot, hq, hc, hfal]
      rw [htr]
      intro e he
      rcases List.mem_append.mp he with h | h
      · exact (hev1 e h).1
      · rcases List.mem_cons.mp h with rfl | h2
        · rfl
        · exact ((load_events s1 env.chosenPath env.load).1 e h2).1
  · intro s3 env hcp
    have htr0 : openRecentFileSlot s3 env
        = (if !env.isFile then (s3, [])
           else
             let c := checkForUnsavedChanges s3 env.check
             if c.2.1 then
               let out := loadProject c.1 path env.load
               let evNew := if out.2.1.isTruthy
                  then [Event.projectNew (some path)] else []
               (out.1, c.2.2 ++ Event.aboutToClose c.1.project_path ::
                  (out.2.2 ++ evNew))
             else (c.1, c.2.2)) := by
      rw [openRecentFileSlot, hcp]
    cases hf : env.isFile with
    | false =>
      rw [htr0]
      simp [hf]
    | true =>
      rcases hc : checkForUnsavedChanges s3 env.check with ⟨s1, ok, ev1⟩
      have hev1 : NoSignals ev1 := by
        have h := check_events s3 env.check
        rw [hc] at h
        exact h
      cases ok with
      | false =>
        have htr : (openRecentFileSlot s3 env).2 = ev1 := by
          rw [htr0]
          simp [hf, hc]
        rw [htr]
        exact fun e he => (hev1 e he).1
      | true =>
        have hfal : (loadProject s1 path env.load).2.1.isTruthy = false := by
          rw [hnet s1 env.load]
          rfl
        have htr : (openRecentFileSlot s3 env).2
            = ev1 ++ Event.aboutToClose s1.project_path ::
                (loadProject s1 path env.load).2.2 := by
          rw [htr0]
          simp [hf, hc, hfal]
        rw [htr]
        intro e he
        rcases List.mem_append.mp he with h | h
        · exact (hev1 e h).1
        · rcases List.mem_cons.mp h with rfl | h2
          · rfl
          · exact ((load_events s1 path env.load).1 e h2).1

/-- A load environment whose conversion outcome is a success whose
nested load of the converted project also succeeds. -/
def convertSuccessEnv : LoadEnv :=
  ⟨⟨none, true, true⟩,
   .success "/home/user/GNS3/projects" "old" ⟨some (some tSample), true, true⟩⟩

/-- An open-project slot environment choosing a legacy `.net` path. -/
def openNetEnv : OpenSlotEnv :=
  ⟨"old.net", ⟨Reply.discard, ⟨true, none, true, true, true⟩, true⟩,
   convertSuccessEnv⟩

/-- Witness for C9: opening `old.net` with a successful conversion and a
successful nested load still yields the falsy `netReturn` (the nested
load did run: the state records the converted project's path), and the
open slot never emits the opened notification. -/
theorem c9_witness :
    extOf "old.net" = ".net" ∧
    (loadProject baseState "old.net" convertSuccessEnv).2.1 = LoadResult.netReturn ∧
    (loadProject baseState "old.net" convertSuccessEnv).1.project_path
      = some "/home/user/GNS3/projects/old/old.gns3" ∧
    (∀ e ∈ (openProjectActionSlot baseState openNetEnv).2, e.isNew = false) := by
  refine ⟨by decide, ?_, by decide, ?_⟩
  · exact (c9_legacy_net_load_falsy "old.net" (by decide)).1 baseState convertSuccessEnv
  · exact (c9_legacy_net_load_falsy "old.net" (by decide)).2.2.1 baseState openNetEnv rfl

/-- A new-project slot environment: nothing modified, dialog cancelled,
temporary project creation succeeding. -/
def newSlotEnv0 : NewSlotEnv :=
  ⟨⟨Reply.discard, ⟨true, none, true, true, true⟩, true⟩, false,
   ⟨some "/tmp/gns3-new", false⟩⟩

/-- An open-project slot environment with a plain `.gns3` path. -/
def openSlotEnv0 : OpenSlotEnv :=
  ⟨"proj.gns3", ⟨Reply.discard, ⟨true, none, true, true, true⟩, true⟩, loadEnvOk⟩

/-- Witness for C6 at concrete inputs: both slots obey the ordering
discipline. -/
theorem c6_witness :
    closingDiscipline (newProjectActionSlot tempState newSlotEnv0).2 ∧
    closingDiscipline (openProjectActionSlot tempState openSlotEnv0).2 :=
  c6_closing_before_opened tempState newSlotEnv0 openSlotEnv0

/-- A bootstrap environment whose server is already connected. -/
def bootEnvConnected : BootstrapEnv :=
  ⟨true, true, ConnectRes.ok, true, "", true, true, true, true, true⟩

/-- Witness for C2 at a concrete input: a run that ends already
connected proceeds to create the temporary project. -/
theorem c2_witness :
    (startupLoading baseState bootEnvConnected
        ⟨some "/tmp/gns3-x", false⟩).2.tempProjectCreated = true :=
  (c2_bootstrap_failure_aborts_startup baseState bootEnvConnected
    ⟨some "/tmp/gns3-x", false⟩).mpr (Or.inl (by decide))

end GNS3
